import Mathlib

/-!
# Verification of the Slack→Telegram relay pipeline (`src/app.py`)

Shallow embedding of the event relay pipeline of `SlackTelegramBot`:
intake (`socket_mode_event_handler`, lines 113–125), the dedup set
(`processed_events`), the FIFO queue (`event_queue`, a `deque` used with
`append`/`popleft`), the dispatcher (`process_event_queue`, lines 69–75,
and `process_message`, lines 77–111), identity resolution (`get_user_id`,
lines 60–67) and the emoji label table (line 98).

External collaborators (Slack Web API, Telegram bot) are oracles returning
`Except PyExc _`; `try/except SlackApiError` and `try/except Exception`
are translated by matching on the error constructor.
-/

namespace SlackTelegram

/-- Python truthiness of an optional string (`if event_id:` / `if user_id:`):
`None` and the empty string are falsy, every other string is truthy. -/
def truthy : Option String → Bool
  | none => false
  | some s => !s.isEmpty

/-- Python `str(x)` as used by an f-string placeholder: `None` renders as
the four-character string `"None"`; a string renders as itself. -/
def pyStrOfOpt : Option String → String
  | none => "None"
  | some s => s

/-- `startsWithChars needle hay`: `needle` is an initial segment of `hay`
(on character lists). Helper for Python's substring test. -/
def startsWithChars : List Char → List Char → Bool
  | [], _ => true
  | _ :: _, [] => false
  | c :: cs, d :: ds => (c == d) && startsWithChars cs ds

/-- `charsContain needle hay`: `needle` occurs contiguously in `hay`. -/
def charsContain (needle : List Char) : List Char → Bool
  | [] => startsWithChars needle []
  | hay@(_ :: rest) => startsWithChars needle hay || charsContain needle rest

/-- Python's `needle in hay` substring test on strings (line 88). -/
def pyIn (needle hay : String) : Bool :=
  charsContain needle.data hay.data

/-- The `event` dictionary of a Slack payload, with the keys the program
reads: `type`, `text`, `user`, `channel`, `client_msg_id` (all may be
absent). -/
structure SlackEvent where
  type : Option String
  text : Option String
  user : Option String
  channel : Option String
  client_msg_id : Option String
deriving DecidableEq, Repr

/-- `req.payload`: the program reads only its `'event'` entry (line 115
requires it to be present; line 80 re-reads it with `.get('event', {})`). -/
structure Payload where
  event : SlackEvent
deriving DecidableEq, Repr

/-- The acknowledgment object returned to Slack (line 125):
`SocketModeResponse(envelope_id=req.envelope_id)`. -/
structure SocketModeResponse where
  envelope_id : String
deriving DecidableEq, Repr

/-- The bot state mutated by the intake handler: `self.event_queue`
(a `deque`, modelled as a list with `append` at the tail and `popleft`
at the head) and `self.processed_events` (a `set`, modelled as a
duplicate-free list queried with `contains`). Both start empty
(`__init__`, lines 40 and 43). -/
structure BotState where
  event_queue : List Payload
  processed_events : List String
deriving DecidableEq, Repr

/-- The initial state built by `__init__`: empty queue, empty dedup set. -/
def initState : BotState := { event_queue := [], processed_events := [] }

/-- Mutations of the shared structures, in program order, used to observe
the order of the queue append (line 120) and the dedup-set insert
(line 121) inside one handler invocation. -/
inductive Action where
  | enqueue (p : Payload)
  | insertId (id : String)
deriving DecidableEq, Repr

/-- Result of one intake-handler invocation: the new state, the mutation
trace in program order, and the returned acknowledgment. -/
structure HandlerResult where
  state : BotState
  trace : List Action
  response : SocketModeResponse
deriving DecidableEq, Repr

/-- `socket_mode_event_handler` (lines 113–125).
`event_id = event.get('client_msg_id')`; the guard
`if event_id and event_id not in self.processed_events:` accepts only a
truthy id (present and non-empty) that is not yet in the set; an accepted
payload is appended to `event_queue` (line 120) and then the id is added
to `processed_events` (line 121); every call returns
`SocketModeResponse(envelope_id=req.envelope_id)` (line 125). -/
def socket_mode_event_handler (s : BotState) (envelope_id : String)
    (p : Payload) : HandlerResult :=
  match p.event.client_msg_id with
  | some id =>
    if !id.isEmpty && !(s.processed_events.contains id) then
      { state := { event_queue := s.event_queue ++ [p],
                   processed_events := s.processed_events ++ [id] },
        trace := [Action.enqueue p, Action.insertId id],
        response := { envelope_id := envelope_id } }
    else
      { state := s, trace := [], response := { envelope_id := envelope_id } }
  | none => { state := s, trace := [], response := { envelope_id := envelope_id } }

/-- The handler's acceptance condition (the guard of line 119), as a
Boolean predicate on the state and payload. -/
def acceptsEvent (s : BotState) (p : Payload) : Bool :=
  match p.event.client_msg_id with
  | some id => !id.isEmpty && !(s.processed_events.contains id)
  | none => false

/-- Deliver a list of `(envelope_id, payload)` requests to the intake
handler in order, threading the state and concatenating the mutation
traces. -/
def deliverAll (s : BotState) : List (String × Payload) → BotState × List Action
  | [] => (s, [])
  | (env, p) :: rest =>
    let r := socket_mode_event_handler s env p
    let later := deliverAll r.state rest
    (later.1, r.trace ++ later.2)

/-- A Python exception as the program distinguishes them:
`SlackApiError` (caught at lines 108 and 65) versus any other
`Exception` (caught only by the bare `except Exception` at line 106). -/
inductive PyExc where
  | slackApiError (error : String)
  | otherException (msg : String)
deriving DecidableEq, Repr

/-- The part of a `users_info` response the program reads:
`user_info['user']['real_name']` (line 94). -/
structure UserInfo where
  real_name : String
deriving DecidableEq, Repr

/-- The part of a `conversations_info` response the program reads:
`channel_info['channel']['name']` (line 95). -/
structure ChannelInfo where
  name : String
deriving DecidableEq, Repr

/-- The external collaborators, as oracles: the two Slack directory
lookups (lines 91–92), the Telegram send (line 104) and the startup
`auth_test` (line 63). Each may raise an exception. -/
structure Collaborators where
  users_info : String → Except PyExc UserInfo
  conversations_info : Option String → Except PyExc ChannelInfo
  send_message : Option String → String → Except PyExc Unit
  auth_test : Except PyExc String

/-- `get_user_id` (lines 60–67): returns `auth_test()["user_id"]`; a
`SlackApiError` is caught and yields `None`; any other exception is not
caught and propagates out of `__init__`. -/
def get_user_id (c : Collaborators) : Except PyExc (Option String) :=
  match c.auth_test with
  | .ok uid => .ok (some uid)
  | .error (.slackApiError _) => .ok none
  | .error e => .error e

/-- The mention marker of line 88: the f-string `f"<@{self.user_id}>"`
(so a `None` user id yields the literal marker `"<@None>"`). -/
def mentionMarker (user_id : Option String) : String :=
  "<@" ++ pyStrOfOpt user_id ++ ">"

/-- Python `dict.get(key, default)` on the emoji table (line 98),
modelled on an association list. -/
def dict_get (d : List (String × String)) (key dflt : String) : String :=
  match d.lookup key with
  | some v => v
  | none => dflt

/-- Line 98: `f"{channel_name} {self.channel_emojis.get(channel_name, '')}"` —
the channel name, a single space, then the (possibly empty) label. -/
def channel_name_with_emoji (channel_emojis : List (String × String))
    (channel_name : String) : String :=
  channel_name ++ " " ++ dict_get channel_emojis channel_name ""

/-- `process_message` (lines 77–111), for one dequeued payload. Returns
`.ok sent` where `sent` is the list of messages delivered to Telegram for
this event (empty or a singleton), or `.error e` when an exception
escapes the function. The `try ... except SlackApiError` around the two
directory lookups (lines 89–109) catches only `slackApiError`; the inner
`try ... except Exception` around the Telegram send (lines 103–107)
catches every exception. Every raise site precedes the Telegram send, so
an `.error` result implies nothing was sent for the event. -/
def process_message (c : Collaborators) (self_user_id : Option String)
    (channel_emojis : List (String × String)) (telegram_chat_id : Option String)
    (event_data : Payload) : Except PyExc (List String) :=
  let event := event_data.event
  if event.type = some "message" ∧ event.text.isSome then
    let text := event.text.getD ""
    let user_id := event.user
    let channel_id := event.channel
    if truthy user_id then
      if pyIn (mentionMarker self_user_id) text then
        match c.users_info (pyStrOfOpt user_id) with
        | .error (.slackApiError _) => .ok []
        | .error e => .error e
        | .ok user_info =>
          match c.conversations_info channel_id with
          | .error (.slackApiError _) => .ok []
          | .error e => .error e
          | .ok channel_info =>
            let message := "Канал: "
              ++ channel_name_with_emoji channel_emojis channel_info.name
              ++ ", Пользователь: " ++ user_info.real_name
              ++ ", Сообщение: " ++ text
            match c.send_message telegram_chat_id message with
            | .ok _ => .ok [message]
            | .error _ => .ok []
      else .ok []
    else .ok []
  else .ok []

/-- The messages actually sent for one event: the payload of an `.ok`
result; an exceptional run sent nothing (every raise site in
`process_message` precedes the Telegram send). -/
def sentOf : Except PyExc (List String) → List String
  | .ok sent => sent
  | .error _ => []

/-- `process_event_queue` (lines 69–75), run over the current queue
contents: `popleft` the head, `process_message` it, continue. Returns the
list of `(payload, messages sent)` records in processing order, paired
with `some e` when an uncaught exception `e` killed the loop (the loop
body has no exception handler; the faulting payload was already popped
and is not recorded). -/
def process_event_queue (c : Collaborators) (self_user_id : Option String)
    (channel_emojis : List (String × String)) (telegram_chat_id : Option String) :
    List Payload → List (Payload × List String) × Option PyExc
  | [] => ([], none)
  | p :: rest =>
    match process_message c self_user_id channel_emojis telegram_chat_id p with
    | .error e => ([], some e)
    | .ok sent =>
      let later := process_event_queue c self_user_id channel_emojis telegram_chat_id rest
      ((p, sent) :: later.1, later.2)

/-- Whole-system state: the bot's shared structures, the messages
delivered to the sink so far, and whether the dispatcher loop has died of
an uncaught exception. -/
structure SysState where
  bot : BotState
  sent : List String
  crashed : Option PyExc
deriving Repr

/-- One observable system step: either Slack's callback thread delivers a
payload to the intake handler, or the dispatcher loop performs one
iteration of its body (a no-op on an empty queue, line 72; a dead loop
performs nothing). -/
inductive Cmd where
  | deliver (envelope_id : String) (p : Payload)
  | dispatchOne
deriving Repr

/-- Interleaving semantics of the two execution contexts: `deliver` runs
`socket_mode_event_handler`; `dispatchOne` runs one iteration of
`process_event_queue`'s body (`popleft` then `process_message`; an
uncaught exception marks the loop dead). Neither step ever removes an
entry from `processed_events` — `process_message` does not touch it. -/
def sysStep (c : Collaborators) (self_user_id : Option String)
    (channel_emojis : List (String × String)) (telegram_chat_id : Option String)
    (s : SysState) : Cmd → SysState
  | .deliver env p =>
    { s with bot := (socket_mode_event_handler s.bot env p).state }
  | .dispatchOne =>
    match s.crashed with
    | some _ => s
    | none =>
      match s.bot.event_queue with
      | [] => s
      | p :: rest =>
        match process_message c self_user_id channel_emojis telegram_chat_id p with
        | .ok msgs =>
          { bot := { s.bot with event_queue := rest },
            sent := s.sent ++ msgs, crashed := none }
        | .error e =>
          { bot := { s.bot with event_queue := rest },
            sent := s.sent, crashed := some e }

/-- Run a sequence of interleaved system steps. -/
def sysRun (c : Collaborators) (self_user_id : Option String)
    (channel_emojis : List (String × String)) (telegram_chat_id : Option String)
    (s : SysState) : List Cmd → SysState
  | [] => s
  | cmd :: cmds =>
    sysRun c self_user_id channel_emojis telegram_chat_id
      (sysStep c self_user_id channel_emojis telegram_chat_id s cmd) cmds

/-! ## Concrete fixtures (the example scenario of spec §8) -/

/-- Collaborators of the §8 scenario: `U1 → "Ann"`, `C1 → "general"`,
Telegram always succeeds, `auth_test` resolves to `U1`; unknown ids fail
with a `SlackApiError`. -/
def demoCollab : Collaborators :=
  { users_info := fun u =>
      if u = "U1" then .ok { real_name := "Ann" }
      else .error (.slackApiError "user_not_found")
  , conversations_info := fun ch =>
      if ch = some "C1" then .ok { name := "general" }
      else .error (.slackApiError "channel_not_found")
  , send_message := fun _ _ => .ok ()
  , auth_test := .ok "U1" }

/-- The emoji table of the §8 scenario: `general → "🔧"`. -/
def demoEmojis : List (String × String) := [("general", "🔧")]

/-- The RawEvent of the §8 scenario:
`{id: "m1", type: "message", text: "<@U1> ping", actorId: "U1", channelId: "C1"}`. -/
def demoPayload : Payload :=
  { event := { type := some "message", text := some "<@U1> ping",
               user := some "U1", channel := some "C1",
               client_msg_id := some "m1" } }

/-- A payload whose event carries no `client_msg_id`. -/
def noIdPayload : Payload :=
  { event := { type := some "message", text := some "hello", user := some "U1",
               channel := some "C1", client_msg_id := none } }

/-- A message event whose text does not contain the identity marker `<@U1>`. -/
def noMarkerPayload : Payload :=
  { event := { type := some "message", text := some "no mention here",
               user := some "U2", channel := some "C1",
               client_msg_id := some "m2" } }

/-- A message event mentioning `<@U1>` but carrying no `user` field. -/
def noUserPayload : Payload :=
  { event := { type := some "message", text := some "<@U1> ping",
               user := none, channel := some "C1",
               client_msg_id := some "m3" } }

/-- A message event whose text contains the literal substring `<@None>`. -/
def mentionsNonePayload : Payload :=
  { event := { type := some "message", text := some "ping <@None> hi",
               user := some "U1", channel := some "C1",
               client_msg_id := some "m9" } }

/-- The demo collaborators with a failing startup identity resolution. -/
def failCollab : Collaborators :=
  { demoCollab with auth_test := .error (.slackApiError "invalid_auth") }

/-- A system state whose dedup set already holds `"m1"`. -/
def demoSys : SysState :=
  { bot := { event_queue := [], processed_events := ["m1"] },
    sent := [], crashed := none }

/-- Action-classifying predicate: is this a dedup-set insertion? -/
def isInsertAction : Action → Bool
  | Action.insertId _ => true
  | _ => false

/-- Action-classifying predicate: is this a queue append? -/
def isEnqueueAction : Action → Bool
  | Action.enqueue _ => true
  | _ => false

/-- A message event mentioning `<@U1>` whose actor `U9` is unknown to the
directory. -/
def failLookupPayload : Payload :=
  { event := { type := some "message", text := some "<@U1> hello",
               user := some "U9", channel := some "C1",
               client_msg_id := some "m4" } }

/-! ## Helper lemmas -/

lemma pm_no_head (c : Collaborators) (uid : Option String)
    (em : List (String × String)) (chat : Option String) (p : Payload)
    (h : ¬ (p.event.type = some "message" ∧ p.event.text.isSome)) :
    process_message c uid em chat p = .ok [] := by
  unfold process_message
  dsimp only
  rw [if_neg]
  simpa using h

lemma pm_no_user (c : Collaborators) (uid : Option String)
    (em : List (String × String)) (chat : Option String) (p : Payload)
    (h : truthy p.event.user = false) :
    process_message c uid em chat p = .ok [] := by
  unfold process_message
  dsimp only
  split <;> simp [h]

lemma pm_no_marker (c : Collaborators) (uid : Option String)
    (em : List (String × String)) (chat : Option String) (p : Payload)
    (h : pyIn (mentionMarker uid) (p.event.text.getD "") = false) :
    process_message c uid em chat p = .ok [] := by
  unfold process_message
  dsimp only
  split <;> simp [h]

lemma handler_discard (st : BotState) (env : String) (p : Payload) (id : String)
    (hid : p.event.client_msg_id = some id) (hmem : id ∈ st.processed_events) :
    socket_mode_event_handler st env p =
      { state := st, trace := [], response := { envelope_id := env } } := by
  unfold socket_mode_event_handler
  rw [hid]
  simp [List.contains, List.elem_eq_mem, hmem]

lemma pm_cases (c : Collaborators) (uid : Option String)
    (em : List (String × String)) (chat : Option String) (p : Payload) :
    process_message c uid em chat p = .ok [] ∨
    (∃ m, process_message c uid em chat p = .ok [m]) ∨
    (∃ e, process_message c uid em chat p = .error e) := by
  unfold process_message
  dsimp only
  repeat' split <;> try simp
  all_goals simp_all

lemma sentOf_length_le_one (c : Collaborators) (uid : Option String)
    (em : List (String × String)) (chat : Option String) (p : Payload) :
    (sentOf (process_message c uid em chat p)).length ≤ 1 := by
  rcases pm_cases c uid em chat p with h | ⟨m, h⟩ | ⟨e, h⟩ <;> simp [h, sentOf]

lemma pm_success (c : Collaborators) (uid : Option String)
    (em : List (String × String)) (chat : Option String) (p : Payload)
    (uinfo : UserInfo) (cinfo : ChannelInfo)
    (htype : p.event.type = some "message") (htext : p.event.text.isSome = true)
    (huser : truthy p.event.user = true)
    (hmark : pyIn (mentionMarker uid) (p.event.text.getD "") = true)
    (hu : c.users_info (pyStrOfOpt p.event.user) = .ok uinfo)
    (hch : c.conversations_info p.event.channel = .ok cinfo)
    (hsend : c.send_message chat ("Канал: " ++ channel_name_with_emoji em cinfo.name
      ++ ", Пользователь: " ++ uinfo.real_name
      ++ ", Сообщение: " ++ p.event.text.getD "") = .ok ()) :
    process_message c uid em chat p =
      .ok ["Канал: " ++ channel_name_with_emoji em cinfo.name
        ++ ", Пользователь: " ++ uinfo.real_name
        ++ ", Сообщение: " ++ p.event.text.getD ""] := by
  unfold process_message
  dsimp only
  rw [if_pos ⟨htype, htext⟩, if_pos huser, if_pos hmark, hu, hch]
  dsimp only
  rw [hsend]

lemma drain_map_fst (c : Collaborators) (uid : Option String)
    (em : List (String × String)) (chat : Option String) :
    ∀ q : List Payload,
      (process_event_queue c uid em chat q).2 = none →
      (process_event_queue c uid em chat q).1.map Prod.fst = q := by
  intro q
  induction q with
  | nil => intro _; rfl
  | cons p rest ih =>
    intro h
    unfold process_event_queue at h ⊢
    cases hp : process_message c uid em chat p with
    | error e => rw [hp] at h; simp at h
    | ok sent =>
      rw [hp] at h
      dsimp only at h
      simp [hp, ih h]

lemma drain_single (c : Collaborators) (uid : Option String)
    (em : List (String × String)) (chat : Option String) (p : Payload) :
    ((process_event_queue c uid em chat [p]).1.map Prod.snd).flatten =
      sentOf (process_message c uid em chat p) := by
  unfold process_event_queue
  cases hp : process_message c uid em chat p <;>
    simp [sentOf, process_event_queue]

lemma handler_shape (s : BotState) (env : String) (p : Payload) :
    (socket_mode_event_handler s env p =
      { state := s, trace := [], response := { envelope_id := env } }) ∨
    (∃ id, p.event.client_msg_id = some id ∧ id.isEmpty = false ∧
      s.processed_events.contains id = false ∧
      socket_mode_event_handler s env p =
        { state := { event_queue := s.event_queue ++ [p],
                     processed_events := s.processed_events ++ [id] },
          trace := [Action.enqueue p, Action.insertId id],
          response := { envelope_id := env } }) := by
  unfold socket_mode_event_handler
  cases hcid : p.event.client_msg_id with
  | none => left; rfl
  | some id =>
    by_cases hacc : (!id.isEmpty && !(s.processed_events.contains id)) = true
    · right
      refine ⟨id, rfl, ?_, ?_, ?_⟩
      · simpa using (Bool.and_elim_left hacc)
      · simpa using (Bool.and_elim_right hacc)
      · dsimp only
        rw [if_pos hacc]
    · left
      dsimp only
      rw [if_neg hacc]

lemma deliverAll_insert_once (id : String) :
    ∀ (ds : List (String × Payload)) (s : BotState),
      ((deliverAll s ds).2.count (Action.insertId id)) ≤
        (if id ∈ s.processed_events then 0 else 1) := by
  intro ds
  induction ds with
  | nil => intro s; simp [deliverAll]
  | cons ep rest ih =>
    intro s
    obtain ⟨env, p⟩ := ep
    unfold deliverAll
    dsimp only
    rcases handler_shape s env p with hd | ⟨id2, hcid, hne, hnotin, hd⟩
    · rw [hd]
      dsimp only
      simpa using ih s
    · rw [hd]
      dsimp only
      rw [List.count_append]
      by_cases hid : id2 = id
      · subst hid
        have hnm : id2 ∉ s.processed_events := by
          intro hmem
          simp [List.contains, List.elem_eq_mem, hmem] at hnotin
        have h2 := ih { event_queue := s.event_queue ++ [p],
                        processed_events := s.processed_events ++ [id2] }
        simp only [List.mem_append, List.mem_singleton, or_true, if_true] at h2
        have hc : ([Action.enqueue p, Action.insertId id2].count (Action.insertId id2)) = 1 := by
          simp [List.count_cons]
        rw [hc, if_neg hnm]
        omega
      · have h2 := ih { event_queue := s.event_queue ++ [p],
                        processed_events := s.processed_events ++ [id2] }
        have hc : ([Action.enqueue p, Action.insertId id2].count (Action.insertId id)) = 0 := by
          simp [List.count_cons, hid]
        rw [hc]
        have hmm : (id ∈ s.processed_events ++ [id2]) ↔ id ∈ s.processed_events := by
          simp only [List.mem_append, List.mem_singleton]
          constructor
          · rintro (h | h)
            · exact h
            · exact absurd h.symm hid
          · exact Or.inl
        dsimp only at h2
        simp only [hmm] at h2
        by_cases hmem : id ∈ s.processed_events
        · rw [if_pos hmem] at h2 ⊢
          omega
        · rw [if_neg hmem] at h2 ⊢
          omega

lemma handler_accept (s : BotState) (env : String) (p : Payload) (id : String)
    (hid : p.event.client_msg_id = some id) (hne : id.isEmpty = false)
    (hnotin : s.processed_events.contains id = false) :
    socket_mode_event_handler s env p =
      { state := { event_queue := s.event_queue ++ [p],
                   processed_events := s.processed_events ++ [id] },
        trace := [Action.enqueue p, Action.insertId id],
        response := { envelope_id := env } } := by
  unfold socket_mode_event_handler
  rw [hid]
  dsimp only
  rw [if_pos (by rw [hne, hnotin]; decide)]

lemma handler_queue_accept (s : BotState) (env : String) (p : Payload)
    (hacc : acceptsEvent s p = true) :
    (socket_mode_event_handler s env p).state.event_queue = s.event_queue ++ [p] := by
  unfold acceptsEvent at hacc
  cases hcid : p.event.client_msg_id with
  | none => rw [hcid] at hacc; simp at hacc
  | some id =>
    rw [hcid] at hacc
    dsimp only at hacc
    rw [handler_accept s env p id hcid (by simpa using Bool.and_elim_left hacc)
      (by simpa using Bool.and_elim_right hacc)]

lemma handler_queue_reject (s : BotState) (env : String) (p : Payload)
    (hacc : acceptsEvent s p = false) :
    (socket_mode_event_handler s env p).state.event_queue = s.event_queue := by
  unfold acceptsEvent at hacc
  unfold socket_mode_event_handler
  cases hcid : p.event.client_msg_id with
  | none => rfl
  | some id =>
    rw [hcid] at hacc
    dsimp only at hacc ⊢
    rw [if_neg (by rw [hacc]; simp)]

lemma sysStep_processed_mono (c : Collaborators) (uid : Option String)
    (em : List (String × String)) (chat : Option String)
    (s : SysState) (cmd : Cmd) (id : String)
    (h : id ∈ s.bot.processed_events) :
    id ∈ (sysStep c uid em chat s cmd).bot.processed_events := by
  cases cmd with
  | deliver env p =>
    unfold sysStep
    dsimp only
    rcases handler_shape s.bot env p with hd | ⟨id2, _, _, _, hd⟩ <;>
      rw [hd] <;> simp [h]
  | dispatchOne =>
    unfold sysStep
    dsimp only
    repeat' split
    all_goals simpa using h

lemma sysRun_processed_mono (c : Collaborators) (uid : Option String)
    (em : List (String × String)) (chat : Option String) :
    ∀ (cmds : List Cmd) (s : SysState) (id : String),
      id ∈ s.bot.processed_events →
      id ∈ (sysRun c uid em chat s cmds).bot.processed_events := by
  intro cmds
  induction cmds with
  | nil => intro s id h; exact h
  | cons cmd rest ih =>
    intro s id h
    exact ih _ id (sysStep_processed_mono c uid em chat s cmd id h)

/-! ## Claim theorems -/

/-- C2, counterexample: the spec says an event without `eventId` is
accepted unconditionally and enqueued; in the code the guard
`if event_id and ...` is falsy for an absent id, so the event is NOT
enqueued — delivering `noIdPayload` to a fresh state leaves the queue
empty and the state unchanged (only the acknowledgment is returned). -/
theorem missing_id_not_enqueued_counterexample :
    (socket_mode_event_handler initState "e1" noIdPayload).state.event_queue = []
    ∧ (socket_mode_event_handler initState "e1" noIdPayload).state = initState
    ∧ (socket_mode_event_handler initState "e1" noIdPayload).response
        = { envelope_id := "e1" } := by
  decide

/-- C2, amended: for every incoming event whose `eventId` is absent, the
intake handler discards it — the state (queue and dedup set) is left
unchanged and nothing is enqueued — while the acknowledgment is still
returned. -/
theorem missing_id_discarded (s : BotState) (env : String) (p : Payload)
    (hnone : p.event.client_msg_id = none) :
    (socket_mode_event_handler s env p).state = s
    ∧ (socket_mode_event_handler s env p).trace = []
    ∧ (socket_mode_event_handler s env p).response = { envelope_id := env } := by
  unfold socket_mode_event_handler
  rw [hnone]
  exact ⟨rfl, rfl, rfl⟩

/-- C2, witness for the amended theorem at a concrete input. -/
theorem missing_id_discarded_witness :
    (socket_mode_event_handler initState "e1" noIdPayload).state = initState
    ∧ (socket_mode_event_handler initState "e1" noIdPayload).trace = []
    ∧ (socket_mode_event_handler initState "e1" noIdPayload).response
        = { envelope_id := "e1" } :=
  missing_id_discarded initState "e1" noIdPayload rfl

/-- C3, counterexample: in the accepting run on `demoPayload` from the
empty state, the mutation trace is queue-append first (index 0), dedup
insert second (index 1) — the insertion does NOT happen strictly before
the enqueue, contrary to the claim (line 120 appends before line 121
inserts). -/
theorem insert_before_enqueue_counterexample :
    acceptsEvent initState demoPayload = true
    ∧ (socket_mode_event_handler initState "e1" demoPayload).trace
        = [Action.enqueue demoPayload, Action.insertId "m1"]
    ∧ (socket_mode_event_handler initState "e1" demoPayload).trace.findIdx
        isInsertAction = 1
    ∧ (socket_mode_event_handler initState "e1" demoPayload).trace.findIdx
        isEnqueueAction = 0
    ∧ ¬ ((socket_mode_event_handler initState "e1" demoPayload).trace.findIdx
          isInsertAction
        < (socket_mode_event_handler initState "e1" demoPayload).trace.findIdx
          isEnqueueAction) := by
  decide

/-- C3, amended: in every accepting run of the intake handler the event
is appended to the queue strictly before its `eventId` is inserted into
the dedup set (the trace is exactly append-then-insert), and over any
whole run of deliveries from the initial state each `eventId` is inserted
at most once. -/
theorem enqueue_then_insert_once (s : BotState) (env : String) (p : Payload)
    (id : String) (hid : p.event.client_msg_id = some id)
    (hne : id.isEmpty = false)
    (hnotin : s.processed_events.contains id = false) :
    (socket_mode_event_handler s env p).trace
      = [Action.enqueue p, Action.insertId id]
    ∧ (socket_mode_event_handler s env p).trace.findIdx isEnqueueAction = 0
    ∧ (socket_mode_event_handler s env p).trace.findIdx isInsertAction = 1
    ∧ ∀ (ds : List (String × Payload)) (id2 : String),
        ((deliverAll initState ds).2.count (Action.insertId id2)) ≤ 1 := by
  rw [handler_accept s env p id hid hne hnotin]
  refine ⟨rfl, rfl, rfl, ?_⟩
  intro ds id2
  have h := deliverAll_insert_once id2 ds initState
  simpa [initState] using h

/-- C3, witness for the amended theorem at a concrete input. -/
theorem enqueue_then_insert_once_witness :
    (socket_mode_event_handler initState "e1" demoPayload).trace
      = [Action.enqueue demoPayload, Action.insertId "m1"]
    ∧ ((deliverAll initState [("e1", demoPayload), ("e2", demoPayload)]).2.count
        (Action.insertId "m1")) ≤ 1 :=
  ⟨(enqueue_then_insert_once initState "e1" demoPayload "m1" rfl rfl rfl).1,
   (enqueue_then_insert_once initState "e1" demoPayload "m1" rfl rfl rfl).2.2.2
     [("e1", demoPayload), ("e2", demoPayload)] "m1"⟩

/-- C4, counterexample: when startup identity resolution fails, the
marker is the literal `"<@None>"`, which is not never-matching — the
event `mentionsNonePayload`, whose text contains `<@None>`, passes the
mention filter and produces a Notification, contrary to the claim that
no Notification is ever produced. -/
theorem never_matching_marker_counterexample :
    get_user_id failCollab = .ok none
    ∧ pyIn (mentionMarker none) (mentionsNonePayload.event.text.getD "") = true
    ∧ (sentOf (process_message demoCollab none demoEmojis (some "chat")
        mentionsNonePayload)).length = 1 :=
  ⟨rfl, rfl, rfl⟩

/-- C4, amended: if startup identity resolution fails with a
`SlackApiError`, the resulting user id is `None` and the marker is the
literal string `"<@None>"`; every event whose text does not contain that
literal substring is rejected by the mention filter and produces no
Notification (and the process does not crash: the handler returns
normally). -/
theorem identity_failure_disables_relay (c : Collaborators)
    (em : List (String × String)) (chat : Option String)
    (e : String) (p : Payload)
    (hauth : c.auth_test = .error (.slackApiError e))
    (hnomark : pyIn (mentionMarker none) (p.event.text.getD "") = false) :
    get_user_id c = .ok none
    ∧ mentionMarker none = "<@None>"
    ∧ process_message c none em chat p = .ok [] := by
  refine ⟨?_, rfl, pm_no_marker c none em chat p hnomark⟩
  unfold get_user_id
  rw [hauth]

/-- C4, witness for the amended theorem at a concrete input. -/
theorem identity_failure_disables_relay_witness :
    get_user_id failCollab = .ok none
    ∧ mentionMarker none = "<@None>"
    ∧ process_message failCollab none demoEmojis (some "chat") demoPayload
        = .ok [] :=
  identity_failure_disables_relay failCollab demoEmojis (some "chat")
    "invalid_auth" demoPayload rfl rfl

/-- C9: a channel name absent from the emoji table yields the empty
label (never an error), and the composed display string is the channel
name followed by a single space and the empty label — a trailing
space. -/
theorem label_fallback (emojis : List (String × String)) (nm : String)
    (habs : emojis.lookup nm = none) :
    dict_get emojis nm "" = ""
    ∧ channel_name_with_emoji emojis nm = nm ++ " " := by
  constructor
  · simp [dict_get, habs]
  · simp [channel_name_with_emoji, dict_get, habs]

/-- C9, witness at the concrete table of the §8 scenario. -/
theorem label_fallback_witness :
    dict_get demoEmojis "unknown-channel" "" = ""
    ∧ channel_name_with_emoji demoEmojis "unknown-channel"
        = "unknown-channel" ++ " " :=
  label_fallback demoEmojis "unknown-channel" (by decide)

/-- C1: delivering the same `(id, payload)` twice to the intake handler
(fresh state, truthy id) enqueues the payload exactly once — the second
delivery is discarded because the id is already in the dedup set, yet
both deliveries get their acknowledgment — and draining the queue sends
exactly the notifications of processing the payload once: at most one,
and exactly one whenever a single processing yields one. -/
theorem duplicate_delivery_single_notification (c : Collaborators)
    (uid : Option String) (em : List (String × String)) (chat : Option String)
    (env1 env2 : String) (p : Payload) (id : String)
    (hid : p.event.client_msg_id = some id) (hne : id.isEmpty = false) :
    (socket_mode_event_handler initState env1 p).state.event_queue = [p]
    ∧ (socket_mode_event_handler
        (socket_mode_event_handler initState env1 p).state env2 p).state
        = (socket_mode_event_handler initState env1 p).state
    ∧ (socket_mode_event_handler initState env1 p).response
        = { envelope_id := env1 }
    ∧ (socket_mode_event_handler
        (socket_mode_event_handler initState env1 p).state env2 p).response
        = { envelope_id := env2 }
    ∧ ((process_event_queue c uid em chat
          (socket_mode_event_handler
            (socket_mode_event_handler initState env1 p).state env2
            p).state.event_queue).1.map Prod.snd).flatten
        = sentOf (process_message c uid em chat p)
    ∧ (sentOf (process_message c uid em chat p)).length ≤ 1
    ∧ ((sentOf (process_message c uid em chat p)).length = 1 →
        ((process_event_queue c uid em chat
          (socket_mode_event_handler
            (socket_mode_event_handler initState env1 p).state env2
            p).state.event_queue).1.map Prod.snd).flatten.length = 1) := by
  have h1 := handler_accept initState env1 p id hid hne rfl
  have hmem : id ∈ (socket_mode_event_handler initState env1 p).state.processed_events := by
    rw [h1]; simp [initState]
  have h2 := handler_discard (socket_mode_event_handler initState env1 p).state
    env2 p id hid hmem
  have hdrain : ((process_event_queue c uid em chat
      (socket_mode_event_handler
        (socket_mode_event_handler initState env1 p).state env2
        p).state.event_queue).1.map Prod.snd).flatten
      = sentOf (process_message c uid em chat p) := by
    rw [h2]
    dsimp only
    rw [h1]
    dsimp only
    simpa [initState] using drain_single c uid em chat p
  refine ⟨?_, ?_, ?_, ?_, hdrain, sentOf_length_le_one c uid em chat p, ?_⟩
  · rw [h1]; simp [initState]
  · rw [h2]
  · rw [h1]
  · rw [h2]
  · intro hone
    rw [hdrain]
    exact hone

/-- C1, witness: the §8 scenario — the event is delivered twice, the
queue holds it once, both acknowledgments are returned, and exactly one
notification is sent. -/
theorem duplicate_delivery_single_notification_witness :
    ((process_event_queue demoCollab (some "U1") demoEmojis (some "chat")
      (socket_mode_event_handler
        (socket_mode_event_handler initState "e1" demoPayload).state "e2"
          demoPayload).state.event_queue).1.map Prod.snd).flatten.length = 1 :=
  (duplicate_delivery_single_notification demoCollab (some "U1") demoEmojis
    (some "chat") "e1" "e2" demoPayload "m1" rfl rfl).2.2.2.2.2.2 (by decide)

/-- C6: FIFO — an accepted event is appended at the tail of the queue, a
rejected one leaves the queue unchanged, and the dispatcher processes the
queue in exactly queue order (so an event accepted earlier is processed
strictly before one accepted later). -/
theorem fifo_order (c : Collaborators) (uid : Option String)
    (em : List (String × String)) (chat : Option String) :
    (∀ (s : BotState) (env : String) (p : Payload),
        acceptsEvent s p = true →
        (socket_mode_event_handler s env p).state.event_queue
          = s.event_queue ++ [p])
    ∧ (∀ (s : BotState) (env : String) (p : Payload),
        acceptsEvent s p = false →
        (socket_mode_event_handler s env p).state.event_queue = s.event_queue)
    ∧ (∀ q : List Payload,
        (process_event_queue c uid em chat q).2 = none →
        (process_event_queue c uid em chat q).1.map Prod.fst = q) :=
  ⟨handler_queue_accept, handler_queue_reject, drain_map_fst c uid em chat⟩

/-- C6, witness at a concrete accepted event and a concrete queue. -/
theorem fifo_order_witness :
    (socket_mode_event_handler initState "e1" demoPayload).state.event_queue
      = initState.event_queue ++ [demoPayload]
    ∧ (process_event_queue demoCollab (some "U1") demoEmojis (some "chat")
        [demoPayload, noMarkerPayload]).1.map Prod.fst
      = [demoPayload, noMarkerPayload] :=
  ⟨(fifo_order demoCollab (some "U1") demoEmojis (some "chat")).1 initState
      "e1" demoPayload (by decide),
   (fifo_order demoCollab (some "U1") demoEmojis (some "chat")).2.2
      [demoPayload, noMarkerPayload] (by decide)⟩

lemma pm_total (c : Collaborators) (uid : Option String)
    (em : List (String × String)) (chat : Option String) (p : Payload)
    (hu : ∀ u e, c.users_info u = .error e → ∃ m, e = PyExc.slackApiError m)
    (hch : ∀ ch e, c.conversations_info ch = .error e →
      ∃ m, e = PyExc.slackApiError m) :
    ∃ sent, process_message c uid em chat p = .ok sent := by
  unfold process_message
  dsimp only
  repeat' split
  all_goals try exact ⟨_, rfl⟩
  · rename_i e hnot heq
    rcases hu _ _ heq with ⟨m, hm⟩
    exact ((hnot m hm).elim)
  · rename_i e hnot heq
    rcases hch _ _ heq with ⟨m, hm⟩
    exact ((hnot m hm).elim)

lemma drain_no_crash (c : Collaborators) (uid : Option String)
    (em : List (String × String)) (chat : Option String)
    (hu : ∀ u e, c.users_info u = .error e → ∃ m, e = PyExc.slackApiError m)
    (hch : ∀ ch e, c.conversations_info ch = .error e →
      ∃ m, e = PyExc.slackApiError m) :
    ∀ q : List Payload, (process_event_queue c uid em chat q).2 = none := by
  intro q
  induction q with
  | nil => rfl
  | cons p rest ih =>
    unfold process_event_queue
    obtain ⟨sent, hs⟩ := pm_total c uid em chat p hu hch
    rw [hs]
    dsimp only
    exact ih

/-- C5: when the Slack directory calls fail only with their interface's
error type (`SlackApiError`, the error the `except` clauses at lines
65 and 108 are written for; the Telegram send may fail with any
exception), every failure during the processing of one event is handled
inside `process_message` — it always returns normally — and no exception
ever escapes the dispatch step to kill the dispatcher loop. -/
theorem per_event_fault_isolation (c : Collaborators) (uid : Option String)
    (em : List (String × String)) (chat : Option String)
    (hu : ∀ u e, c.users_info u = .error e → ∃ m, e = PyExc.slackApiError m)
    (hch : ∀ ch e, c.conversations_info ch = .error e →
      ∃ m, e = PyExc.slackApiError m) :
    (∀ p : Payload, ∃ sent, process_message c uid em chat p = .ok sent)
    ∧ (∀ q : List Payload, (process_event_queue c uid em chat q).2 = none) :=
  ⟨fun p => pm_total c uid em chat p hu hch,
   drain_no_crash c uid em chat hu hch⟩

/-- C5, witness: the demo collaborators (whose Slack errors are all
`SlackApiError`) never make `process_message` raise, even for an event
whose lookups fail. -/
theorem per_event_fault_isolation_witness :
    (∃ sent, process_message demoCollab (some "U1") demoEmojis (some "chat")
      noMarkerPayload = .ok sent)
    ∧ (process_event_queue demoCollab (some "U1") demoEmojis (some "chat")
        [demoPayload, noMarkerPayload]).2 = none := by
  have hu : ∀ u e, demoCollab.users_info u = .error e →
      ∃ m, e = PyExc.slackApiError m := by
    intro u e h
    by_cases hq : u = "U1" <;> simp [demoCollab, hq] at h
    exact ⟨_, h.symm⟩
  have hch : ∀ ch e, demoCollab.conversations_info ch = .error e →
      ∃ m, e = PyExc.slackApiError m := by
    intro ch e h
    by_cases hq : ch = some "C1" <;> simp [demoCollab, hq] at h
    exact ⟨_, h.symm⟩
  exact ⟨(per_event_fault_isolation demoCollab (some "U1") demoEmojis
      (some "chat") hu hch).1 noMarkerPayload,
    (per_event_fault_isolation demoCollab (some "U1") demoEmojis
      (some "chat") hu hch).2 [demoPayload, noMarkerPayload]⟩

/-- C7: a dequeued event produces a Notification only if its type is
`"message"`, it has a `text`, the text contains the identity marker, and
it has a (truthy) `user`; an event without the marker, or without a
user, produces none; an event meeting all four conditions, with both
directory lookups and the sink call succeeding, produces exactly one. -/
theorem mention_filter_conditions (c : Collaborators) (uid : Option String)
    (em : List (String × String)) (chat : Option String) (p : Payload) :
    (sentOf (process_message c uid em chat p) ≠ [] →
      p.event.type = some "message" ∧ p.event.text.isSome = true
      ∧ truthy p.event.user = true
      ∧ pyIn (mentionMarker uid) (p.event.text.getD "") = true)
    ∧ (pyIn (mentionMarker uid) (p.event.text.getD "") = false →
        sentOf (process_message c uid em chat p) = [])
    ∧ (truthy p.event.user = false →
        sentOf (process_message c uid em chat p) = [])
    ∧ (∀ (uinfo : UserInfo) (cinfo : ChannelInfo),
        p.event.type = some "message" → p.event.text.isSome = true →
        truthy p.event.user = true →
        pyIn (mentionMarker uid) (p.event.text.getD "") = true →
        c.users_info (pyStrOfOpt p.event.user) = .ok uinfo →
        c.conversations_info p.event.channel = .ok cinfo →
        c.send_message chat ("Канал: " ++ channel_name_with_emoji em cinfo.name
          ++ ", Пользователь: " ++ uinfo.real_name
          ++ ", Сообщение: " ++ p.event.text.getD "") = .ok () →
        (sentOf (process_message c uid em chat p)).length = 1) := by
  refine ⟨?_, ?_, ?_, ?_⟩
  · intro hne
    have h1 : p.event.type = some "message" ∧ p.event.text.isSome = true := by
      by_contra hcon
      rw [pm_no_head c uid em chat p (by simpa using hcon)] at hne
      simp [sentOf] at hne
    have h2 : truthy p.event.user = true := by
      by_contra hcon
      rw [pm_no_user c uid em chat p (by simpa using hcon)] at hne
      simp [sentOf] at hne
    have h3 : pyIn (mentionMarker uid) (p.event.text.getD "") = true := by
      by_contra hcon
      rw [pm_no_marker c uid em chat p (by simpa using hcon)] at hne
      simp [sentOf] at hne
    exact ⟨h1.1, h1.2, h2, h3⟩
  · intro h
    rw [pm_no_marker c uid em chat p h]
    rfl
  · intro h
    rw [pm_no_user c uid em chat p h]
    rfl
  · intro uinfo cinfo htype htext huser hmark hui hci hsend
    rw [pm_success c uid em chat p uinfo cinfo htype htext huser hmark hui hci
      hsend]
    rfl

/-- C7, witness: an event without the marker and an event without a
user produce no notification; the §8 event produces exactly one. -/
theorem mention_filter_conditions_witness :
    sentOf (process_message demoCollab (some "U1") demoEmojis (some "chat")
      noMarkerPayload) = []
    ∧ sentOf (process_message demoCollab (some "U1") demoEmojis (some "chat")
        noUserPayload) = []
    ∧ (sentOf (process_message demoCollab (some "U1") demoEmojis (some "chat")
        demoPayload)).length = 1 :=
  ⟨(mention_filter_conditions demoCollab (some "U1") demoEmojis (some "chat")
      noMarkerPayload).2.1 (by decide),
   (mention_filter_conditions demoCollab (some "U1") demoEmojis (some "chat")
      noUserPayload).2.2.1 (by decide),
   (mention_filter_conditions demoCollab (some "U1") demoEmojis (some "chat")
      demoPayload).2.2.2 { real_name := "Ann" } { name := "general" } rfl rfl
     (by decide) (by decide) rfl rfl rfl⟩

lemma drain_cons (c : Collaborators) (uid : Option String)
    (em : List (String × String)) (chat : Option String)
    (p : Payload) (rest : List Payload) (sent : List String)
    (h : process_message c uid em chat p = .ok sent) :
    process_event_queue c uid em chat (p :: rest)
      = ((p, sent) :: (process_event_queue c uid em chat rest).1,
         (process_event_queue c uid em chat rest).2) := by
  conv_lhs => unfold process_event_queue
  rw [h]

/-- C8: if the directory lookup for an event fails with a
`SlackApiError` — the actor resolution fails, or it succeeds and the
channel resolution fails — the event yields no notification and
`process_message` returns normally, and the next events in the queue are
processed exactly as they would have been without it. -/
theorem enrichment_failure_isolation (c : Collaborators) (uid : Option String)
    (em : List (String × String)) (chat : Option String)
    (p1 : Payload) (rest : List Payload) (err : String)
    (hfail : c.users_info (pyStrOfOpt p1.event.user)
        = .error (.slackApiError err)
      ∨ ((∃ uinfo, c.users_info (pyStrOfOpt p1.event.user) = .ok uinfo)
         ∧ c.conversations_info p1.event.channel
            = .error (.slackApiError err))) :
    process_message c uid em chat p1 = .ok []
    ∧ (process_event_queue c uid em chat (p1 :: rest)).1
        = (p1, []) :: (process_event_queue c uid em chat rest).1
    ∧ (process_event_queue c uid em chat (p1 :: rest)).2
        = (process_event_queue c uid em chat rest).2 := by
  have hpm : process_message c uid em chat p1 = .ok [] := by
    unfold process_message
    dsimp only
    repeat' split
    all_goals try rfl
    all_goals rcases hfail with hf | ⟨⟨uinfo, hok⟩, hcf⟩ <;> try simp_all
    all_goals (rename_i hnot heq; exact hnot err heq.symm)
  have hq := drain_cons c uid em chat p1 rest [] hpm
  rw [hq]
  exact ⟨hpm, rfl, rfl⟩

/-- C8, witness: a lookup-failing event (`unknown` actor) is dropped and
the §8 event right after it is still processed normally. -/
theorem enrichment_failure_isolation_witness :
    process_message demoCollab (some "U1") demoEmojis (some "chat")
      failLookupPayload = .ok []
    ∧ (process_event_queue demoCollab (some "U1") demoEmojis (some "chat")
        (failLookupPayload :: [demoPayload])).1
      = (failLookupPayload, [])
        :: (process_event_queue demoCollab (some "U1") demoEmojis (some "chat")
            [demoPayload]).1 :=
  ⟨(enrichment_failure_isolation demoCollab (some "U1") demoEmojis
      (some "chat") failLookupPayload [demoPayload] "user_not_found"
      (Or.inl rfl)).1,
   (enrichment_failure_isolation demoCollab (some "U1") demoEmojis
      (some "chat") failLookupPayload [demoPayload] "user_not_found"
      (Or.inl rfl)).2.1⟩

/-- C10: the dedup decision is made at intake and is permanent — over any
interleaved run of deliveries and dispatcher iterations (whatever the
processing outcomes, including filtered events, lookup failures, sink
failures or even a dispatcher crash), an id present in the dedup set is
still present afterwards, and any later delivery of an event carrying
that id is discarded by the intake handler while its acknowledgment is
still returned. -/
theorem dedup_decision_permanent (c : Collaborators) (uid : Option String)
    (em : List (String × String)) (chat : Option String)
    (s : SysState) (cmds : List Cmd) (id : String)
    (hid : id ∈ s.bot.processed_events) :
    id ∈ (sysRun c uid em chat s cmds).bot.processed_events
    ∧ ∀ (env : String) (p : Payload), p.event.client_msg_id = some id →
        (socket_mode_event_handler (sysRun c uid em chat s cmds).bot env
          p).state = (sysRun c uid em chat s cmds).bot
        ∧ (socket_mode_event_handler (sysRun c uid em chat s cmds).bot env
            p).trace = []
        ∧ (socket_mode_event_handler (sysRun c uid em chat s cmds).bot env
            p).response = { envelope_id := env } := by
  have hmono := sysRun_processed_mono c uid em chat cmds s id hid
  refine ⟨hmono, ?_⟩
  intro env p hp
  rw [handler_discard _ env p id hp hmono]
  exact ⟨rfl, rfl, rfl⟩

/-- C10, witness: after a run that delivers the §8 event again and lets
the dispatcher take a step, `"m1"` is still in the dedup set and a fresh
redelivery is discarded with its acknowledgment returned. -/
theorem dedup_decision_permanent_witness :
    "m1" ∈ (sysRun demoCollab (some "U1") demoEmojis (some "chat") demoSys
      [Cmd.deliver "e1" demoPayload, Cmd.dispatchOne]).bot.processed_events
    ∧ (socket_mode_event_handler
        (sysRun demoCollab (some "U1") demoEmojis (some "chat") demoSys
          [Cmd.deliver "e1" demoPayload, Cmd.dispatchOne]).bot "e9"
        demoPayload).trace = [] :=
  ⟨(dedup_decision_permanent demoCollab (some "U1") demoEmojis (some "chat")
      demoSys [Cmd.deliver "e1" demoPayload, Cmd.dispatchOne] "m1"
      (by decide)).1,
   ((dedup_decision_permanent demoCollab (some "U1") demoEmojis (some "chat")
      demoSys [Cmd.deliver "e1" demoPayload, Cmd.dispatchOne] "m1"
      (by decide)).2 "e9" demoPayload rfl).2.1⟩
